import Mathlib

/-!
# Verification of the poppi launcher's query-routing core

This file gives a shallow embedding, in Lean 4, of the query classification
and ranked-retrieval pipeline of the poppi launcher (`src/ui.rs`,
`src/app_launcher.rs`, `src/emoji_picker.rs`, `src/window_switcher.rs`,
`src/calculator.rs`, `src/terminal.rs`), and proves properties of it.

Modelling conventions:

* Rust `&str` / `String` values are modelled as `List Char` (`Str`).  Rust
  string comparison (`cmp`) is byte-wise lexicographic on UTF-8, which
  coincides with the codepoint-lexicographic order on `List Char` used here.
  `trim`, `to_lowercase` and `char::is_whitespace` are modelled at ASCII
  granularity (the queries and keywords the router inspects are ASCII).
* The fuzzy scorer (`SkimMatcherV2::fuzzy_match`, an external crate) is an
  abstract parameter `matcher : Str → Str → Option Int`.
* `meval::eval_str` composed with `Calculator::format_result` (external crate
  plus `f64` formatting) is an abstract oracle `mevalFmt : Str → Option Str`
  (`none` models an evaluation error).
* `str::parse::<f64>().is_ok()` is the abstract predicate `parseF64ok`.
* External processes probed by `WindowSwitcher::get_open_windows` are
  abstracted by a `WinBackends` record holding each backend's outcome.
* Rust's `sort_unstable_by` guarantees only a permutation sorted by the
  comparator; it is modelled by `List.insertionSort` on the same comparator
  (a particular sorted permutation).  No confirmed theorem below depends on
  the order of comparator-ties.  `sort_by` (stable) is also modelled by
  `List.insertionSort`, which is stable.
-/

/-- Rust strings are modelled as lists of characters. -/
abbrev Str := List Char

/-- Coerce a Lean string literal to the `Str` model. -/
def str (s : String) : Str := s.data

/-- ASCII model of Rust `char::is_whitespace` for the characters the router
meets in practice. -/
def isWS (c : Char) : Bool := c = ' ' || c = '\t' || c = '\n' || c = '\r'

/-- Model of Rust `str::trim`. -/
def strTrim (s : Str) : Str :=
  ((s.dropWhile isWS).reverse.dropWhile isWS).reverse

/-- ASCII model of Rust `str::to_lowercase`. -/
def toLowerStr (s : Str) : Str := s.map Char.toLower

/-- Model of `trimmed.split_whitespace().next().unwrap_or("")`. -/
def firstWord (s : Str) : Str :=
  (s.dropWhile isWS).takeWhile (fun c => !isWS c)

/-- Model of `s.strip_prefix(p).unwrap_or(d)`: the remainder of `s` after the
prefix `p` when `p` is a prefix of `s`, and `d` otherwise. -/
def stripPrefixD (s p d : Str) : Str :=
  if p.isPrefixOf s then s.drop p.length else d

/-! ## Data model (`src/ui.rs`, `src/app_launcher.rs`, `src/emoji_picker.rs`,
`src/window_switcher.rs`) -/

/-- `App` from `src/app_launcher.rs` (the `desktop_file : PathBuf` is kept as
its path string). -/
structure App where
  name : Str
  name_lower : Str
  exec : Str
  icon : Option Str
  comment : Option Str
  comment_lower : Option Str
  desktop_file : Str
deriving DecidableEq

/-- `Emoji` from `src/emoji_picker.rs`. -/
structure Emoji where
  emoji : Str
  name : Str
  keywords : List Str
deriving DecidableEq

/-- `OpenWindow` from `src/window_switcher.rs`. -/
structure OpenWindow where
  window_id : Str
  title : Str
  app_name : Str
deriving DecidableEq

/-- `Mode` from `src/ui.rs`. -/
inductive Mode where
  | Apps
  | Calculator
  | Emoji
  | Terminal
  | Search
  | WindowSwitch
deriving DecidableEq

/-- `ResultItem` from `src/ui.rs` (constructor names lowercased to avoid
clashing with the payload types). -/
inductive ResultItem where
  | app (a : App)
  | calculatorResult (s : Str)
  | emoji (e : Emoji)
  | terminalCommand (s : Str)
  | searchQuery (engine query : Str)
  | openWindow (w : OpenWindow)
  | settings
deriving DecidableEq

/-! ## Rankable collections -/

/-- A fuzzy scorer: the abstract model of `SkimMatcherV2::fuzzy_match`
applied as `fuzzy_match(candidate, query)`. -/
abbrev Matcher := Str → Str → Option Int

/-- `AppLauncher::search` from `src/app_launcher.rs` lines 131-166.
The final `sort_unstable_by(|a, b| b.1.cmp(&a.1))` (descending by score) is
modelled by `List.insertionSort` on the same comparator. -/
def appSearch (matcher : Matcher) (apps : List App) (query : Str) :
    List (App × Int) :=
  if query = [] then
    (apps.map (fun app => (app, 0))).take 20
  else
    let query_lower := toLowerStr query
    let results := apps.filterMap (fun app =>
      let name_score := matcher app.name_lower query_lower
      let comment_score := app.comment_lower.bind (fun c => matcher c query_lower)
      let score := max (name_score.getD 0) (comment_score.getD 0)
      if 0 < score then some (app, score) else none)
    ((results.insertionSort (fun a b => b.2 ≤ a.2)).take 20)

/-- `EmojiPicker::search` from `src/emoji_picker.rs` lines 71-102 (its
`sort_by` is a stable sort, faithfully modelled by `List.insertionSort`). -/
def emojiSearch (matcher : Matcher) (emojis : List Emoji) (query : Str) :
    List (Emoji × Int) :=
  if query = [] then
    (emojis.map (fun e => (e, 0))).take 20
  else
    let query_lower := toLowerStr query
    let results := emojis.filterMap (fun e =>
      let name_score := matcher (toLowerStr e.name) query_lower
      let keyword_score :=
        (e.keywords.filterMap (fun kw => matcher (toLowerStr kw) query_lower)).max?
      let score := max (name_score.getD 0) (keyword_score.getD 0)
      if 0 < score then some (e, score) else none)
    ((results.insertionSort (fun a b => b.2 ≤ a.2)).take 20)

/-- The matching pass of `WindowSwitcher::search` (lines 456-472): score each
window by `max(title_score * 2, app_score)` and keep the strictly positive
ones. -/
def windowMatches (matcher : Matcher) (query_lower : Str)
    (windows : List OpenWindow) : List (OpenWindow × Int) :=
  windows.filterMap (fun w =>
    let title_score := matcher (toLowerStr w.title) query_lower
    let app_score := matcher (toLowerStr w.app_name) query_lower
    let score := max ((title_score.map (· * 2)).getD 0) (app_score.getD 0)
    if 0 < score then some (w, score) else none)

/-- `WindowSwitcher::search` from `src/window_switcher.rs` lines 445-477:
no truncation in either branch; the empty query returns every window sorted
by title, a non-empty query returns every match sorted descending by score. -/
def windowSearch (matcher : Matcher) (query : Str) (windows : List OpenWindow) :
    List (OpenWindow × Int) :=
  if query = [] then
    (windows.map (fun w => (w, 0))).insertionSort (fun a b => a.1.title ≤ b.1.title)
  else
    (windowMatches matcher (toLowerStr query) windows).insertionSort
      (fun a b => b.2 ≤ a.2)

/-- The sorting pass of `AppLauncher::new` (line 126): the loaded collection
is sorted by pre-computed lowercase name
(`apps.sort_unstable_by(|a, b| a.name_lower.cmp(&b.name_lower))`). -/
def newSortedApps (parsed : List App) : List App :=
  parsed.insertionSort (fun a b => a.name_lower ≤ b.name_lower)

/-! ## Calculator and terminal heuristics (`src/calculator.rs`, `src/terminal.rs`) -/

/-- The glyph normalisation of `Calculator::evaluate` (lines 6-10): the four
single-character `replace` calls, none of whose outputs is rewritten by a
later call, collapse to one character map. -/
def normalizeGlyphs (q : Str) : Str :=
  q.map (fun c =>
    if c = '×' then '*'
    else if c = '÷' then '/'
    else if c = 'x' || c = 'X' then '*'
    else c)

/-- `Calculator::is_calculation` from `src/calculator.rs` lines 19-25.
`parseF64ok` abstracts `query.trim().parse::<f64>().is_ok()`. -/
def isCalculation (parseF64ok : Str → Bool) (q : Str) : Bool :=
  let has_number := q.any (fun c => c.isDigit)
  let has_operator := q.any (fun c => (str "+-*/×÷xX^()").contains c)
  has_number && (has_operator || parseF64ok (strTrim q))

/-- The fixed allow-list of `Terminal::is_terminal_command`
(`src/terminal.rs` lines 157-167). -/
def terminalCommands : List Str :=
  [str "ls", str "cd", str "pwd", str "grep", str "find", str "cat",
   str "less", str "more", str "head", str "tail", str "mkdir", str "rm",
   str "cp", str "mv", str "chmod", str "chown", str "sudo", str "git",
   str "npm", str "cargo", str "python", str "python3", str "node",
   str "yarn", str "pnpm", str "docker", str "podman", str "kubectl",
   str "curl", str "wget", str "ssh", str "scp", str "rsync", str "htop",
   str "top", str "ps", str "kill", str "ping", str "traceroute",
   str "ifconfig", str "ip", str "netstat", str "df", str "du", str "free",
   str "uname", str "whoami", str "date", str "cal", str "man", str "which",
   str "whereis", str "echo", str "printf", str "touch", str "nano",
   str "vim", str "vi", str "nvim", str "apt", str "dnf", str "yum",
   str "pacman", str "flatpak", str "snap"]

/-- `Terminal::is_terminal_command` from `src/terminal.rs` lines 147-172. -/
def isTerminalCommand (q : Str) : Bool :=
  let trimmed := strTrim q
  if (str "> ").isPrefixOf trimmed || (str "$ ").isPrefixOf trimmed then
    true
  else
    terminalCommands.any (fun cmd => firstWord trimmed = cmd)

/-! ## Window enumeration (`src/window_switcher.rs` lines 24-70) -/

/-- The outcome of each external probe consulted by
`WindowSwitcher::get_open_windows`: the result of the window-calls D-Bus
query, whether `wmctrl` is installed and what it returned, and likewise for
`xdotool`.  (The per-backend parsing and visibility filtering happen inside
these probes and are absorbed into the recorded outcome.) -/
structure WinBackends where
  window_calls : Except Str (List OpenWindow)
  has_wmctrl : Bool
  wmctrl : Except Str (List OpenWindow)
  has_xdotool : Bool
  xdotool : Except Str (List OpenWindow)

/-- The error message of `get_open_windows` (line 69). -/
def noWindowsMsg : Str :=
  str "No windows found. Install \x27window-calls\x27 extension for native Wayland window support."

/-- The `all_windows` value of `get_open_windows` after the window-calls and
wmctrl sections (lines 25-50): the window-calls result (an error is ignored),
extended — when `wmctrl` is installed and succeeded — by the wmctrl windows
whose `(title, app_name)` key is not already present (the key set is computed
once, before the merge loop). -/
def mergedWindows (bk : WinBackends) : List OpenWindow :=
  let all0 : List OpenWindow :=
    match bk.window_calls with
    | .ok ws => ws
    | .error _ => []
  if bk.has_wmctrl then
    match bk.wmctrl with
    | .ok ws =>
        let existing_keys := all0.map (fun w => (w.title, w.app_name))
        all0 ++ ws.filter (fun w => !existing_keys.contains (w.title, w.app_name))
    | .error _ => all0
  else all0

/-- `WindowSwitcher::get_open_windows` from `src/window_switcher.rs` lines
24-70, as a function of the probe outcomes. -/
def getOpenWindows (bk : WinBackends) : Except Str (List OpenWindow) :=
  let all_windows := mergedWindows bk
  if all_windows ≠ [] then
    .ok all_windows
  else if bk.has_xdotool then
    match bk.xdotool with
    | .ok ws => if ws ≠ [] then .ok ws else .error noWindowsMsg
    | .error _ => .error noWindowsMsg
  else .error noWindowsMsg

/-! ## The router state (`src/ui.rs`) -/

/-- The abstract outcomes of every external collaborator `update_query`
consults: the fuzzy scorer, the float parser of `is_calculation`, the
arithmetic evaluator composed with result formatting (`none` = evaluation
error), and the window-probe outcomes of the first and second
`get_open_windows` call a single `update_query` run can make. -/
structure Env where
  matcher : Matcher
  parseF64ok : Str → Bool
  mevalFmt : Str → Option Str
  wb1 : WinBackends
  wb2 : WinBackends

/-- `LauncherState` from `src/ui.rs` lines 17-26: the `app_launcher` and
`emoji_picker` components are represented by their collections (their
matcher lives in `Env`). -/
structure LauncherState where
  apps : List App
  emojis : List Emoji
  open_windows : List OpenWindow
  current_mode : Mode
  results : List ResultItem
  displayed_results : List ResultItem
  selected_index : Nat
deriving DecidableEq

/-- `LauncherState::new` (lines 50-61): empty app collection (lazy loading),
empty window cache, `Apps` mode, no results.  The emoji table loaded by
`EmojiPicker::new` is pure data irrelevant to the claims and is taken as a
parameter. -/
def LauncherState.new (emojis : List Emoji) : LauncherState :=
  { apps := []
    emojis := emojis
    open_windows := []
    current_mode := .Apps
    results := []
    displayed_results := []
    selected_index := 0 }

/-! ## `LauncherState::update_query` (`src/ui.rs` lines 71-252) -/

/-- The settings condition of `update_query` (line 86). -/
def settingsPred (query : Str) : Bool :=
  query = str "poppi settings" || query = str "settings" ||
    (str "poppi settings ").isPrefixOf query

/-- The window-switch condition of `update_query` (line 93). -/
def windowSwitchPred (query : Str) : Bool :=
  query = str "sw" || (str "sw ").isPrefixOf query ||
    query = str "switch" || (str "switch ").isPrefixOf query

/-- The three search-engine prefix conditions of `update_query`
(lines 154, 164, 174). -/
def searchEnginePred (query : Str) : Bool :=
  (str "yt ").isPrefixOf query || (str "youtube ").isPrefixOf query ||
    (str "gpt ").isPrefixOf query || (str "chatgpt ").isPrefixOf query ||
    (str "google ").isPrefixOf query

/-- The emoji condition of `update_query` (line 185). -/
def emojiPred (query : Str) : Bool :=
  (str "emoji ").isPrefixOf query || (str ":").isPrefixOf query

/-- The window-switch branch of `update_query` (lines 94-145), entered with
the already-trimmed query. -/
def updateQueryWindowSwitch (env : Env) (st : LauncherState) (query : Str) :
    LauncherState :=
  let window_query : Str :=
    if query = str "sw" || query = str "switch" then []
    else stripPrefixD query (str "sw ") (stripPrefixD query (str "switch ") query)
  -- Only fetch windows if cache is empty (lines 103-110); an `Err` outcome
  -- and an empty `Ok` outcome both leave the cache alone.
  let ow : List OpenWindow :=
    if st.open_windows = [] then
      match getOpenWindows env.wb1 with
      | .ok ws => if ws ≠ [] then ws else st.open_windows
      | .error _ => st.open_windows
    else st.open_windows
  let results := (windowSearch env.matcher window_query ow).map
    (fun p => ResultItem.openWindow p.1)
  -- If no results and no windows, retry once and synthesise a message
  -- (lines 120-144).
  if results = [] ∧ ow = [] then
    match getOpenWindows env.wb2 with
    | .ok ws =>
        if ws ≠ [] then
          { st with current_mode := .WindowSwitch, open_windows := ws,
                    results := (windowSearch env.matcher window_query ws).map
                      (fun p => ResultItem.openWindow p.1) }
        else
          { st with current_mode := .WindowSwitch, open_windows := ow,
                    results := [.searchQuery (str "info")
                      (str "No open windows found")] }
    | .error e =>
        { st with current_mode := .WindowSwitch, open_windows := ow,
                  results := [.searchQuery (str "error")
                    (str "Error: " ++ e ++ str ". Try: wmctrl -l")] }
  else
    { st with current_mode := .WindowSwitch, open_windows := ow,
              results := results }

/-- `LauncherState::update_query` from `src/ui.rs` lines 71-252, as a pure
state transformer over the collaborator outcomes in `Env`.  The branch
structure, branch order and branch bodies mirror the source line by line;
note that the cache-clearing guard (lines 148-151) tests `current_mode`
*before* it is reassigned, i.e. the mode the previous query established. -/
def updateQuery (env : Env) (st : LauncherState) (rawQuery : Str) :
    LauncherState :=
  let query := strTrim rawQuery
  if query = [] then
    { st with current_mode := .Apps,
              results := (appSearch env.matcher st.apps []).map
                (fun p => ResultItem.app p.1) }
  else if settingsPred query then
    { st with current_mode := .Apps, results := [.settings] }
  else if windowSwitchPred query then
    updateQueryWindowSwitch env st query
  else
    -- "Clear window cache when leaving window switch mode" (lines 148-151):
    -- the code clears when the *prior* mode is not `WindowSwitch`.
    let st :=
      if st.current_mode ≠ Mode.WindowSwitch then { st with open_windows := [] }
      else st
    if (str "yt ").isPrefixOf query || (str "youtube ").isPrefixOf query then
      { st with current_mode := .Search,
                results := [.searchQuery (str "youtube")
                  (stripPrefixD query (str "yt ")
                    (stripPrefixD query (str "youtube ") query))] }
    else if (str "gpt ").isPrefixOf query || (str "chatgpt ").isPrefixOf query then
      { st with current_mode := .Search,
                results := [.searchQuery (str "chatgpt")
                  (stripPrefixD query (str "gpt ")
                    (stripPrefixD query (str "chatgpt ") query))] }
    else if (str "google ").isPrefixOf query then
      { st with current_mode := .Search,
                results := [.searchQuery (str "google")
                  (stripPrefixD query (str "google ") query)] }
    else if emojiPred query then
      { st with current_mode := .Emoji,
                results := (emojiSearch env.matcher st.emojis
                    (stripPrefixD query (str "emoji ")
                      (stripPrefixD query (str ":") query))).map
                  (fun p => ResultItem.emoji p.1) }
    else if isCalculation env.parseF64ok query then
      match env.mevalFmt (normalizeGlyphs query) with
      | some s =>
          { st with current_mode := .Calculator, results := [.calculatorResult s] }
      | none =>
          -- If calculation fails, fall back to app search (lines 205-213).
          { st with current_mode := .Apps,
                    results := (appSearch env.matcher st.apps query).map
                      (fun p => ResultItem.app p.1) }
    else if isTerminalCommand query then
      { st with current_mode := .Terminal, results := [.terminalCommand query] }
    else
      let app_results := (appSearch env.matcher st.apps query).map
        (fun p => ResultItem.app p.1)
      if app_results = [] ∧ query ≠ [] then
        { st with current_mode := .Apps,
                  results := [.searchQuery (str "youtube") query,
                              .searchQuery (str "google") query,
                              .searchQuery (str "chatgpt") query] }
      else
        { st with current_mode := .Apps, results := app_results }

/-! ## Presentation adapter (`src/ui.rs` lines 549-594 and 641-789) -/

/-- The display cap applied by the `entry.connect_changed` handler
(lines 555-561): 24 in emoji mode, otherwise `max_results = 5`. -/
def displayLimit (m : Mode) : Nat :=
  if m = Mode.Emoji then 24 else 5

/-- The `entry.connect_changed` handler (lines 549-567): run `update_query`,
cap the results at the display limit into `displayed_results`, and reset the
selection to 0. -/
def onQueryChanged (env : Env) (st : LauncherState) (rawQuery : Str) :
    LauncherState :=
  let st := updateQuery env st rawQuery
  { st with displayed_results := st.results.take (displayLimit st.current_mode),
            selected_index := 0 }

/-- The Down-arrow handler (lines 648-679): in emoji mode with a non-empty
display, move the grid cursor down one row of 8, clamped to the last index;
in list mode the handler moves the GTK row selection and leaves
`selected_index` alone. -/
def onKeyDown (st : LauncherState) : LauncherState :=
  if st.current_mode = Mode.Emoji ∧ st.displayed_results ≠ [] then
    let new_index := min (st.selected_index + 8) (st.displayed_results.length - 1)
    { st with selected_index := new_index }
  else st

/-- The Up-arrow handler (lines 681-714): in emoji mode move up one row of 8
(saturating at 0). -/
def onKeyUp (st : LauncherState) : LauncherState :=
  if st.current_mode = Mode.Emoji ∧ st.displayed_results ≠ [] then
    { st with selected_index := st.selected_index - 8 }
  else st

/-- The Right-arrow handler (lines 716-751): in emoji mode move right,
wrapping to the start of the next row when one exists. -/
def onKeyRight (st : LauncherState) : LauncherState :=
  if st.current_mode = Mode.Emoji ∧ st.displayed_results ≠ [] then
    let max_index := st.displayed_results.length - 1
    let current_row := st.selected_index / 8
    let current_col := st.selected_index % 8
    let new_index :=
      if current_col = 7 then
        let next_row_start := (current_row + 1) * 8
        if next_row_start ≤ max_index then next_row_start else st.selected_index
      else
        min (st.selected_index + 1) max_index
    { st with selected_index := new_index }
  else st

/-- The Left-arrow handler (lines 752-786): in emoji mode move left, wrapping
to the end of the previous row when one exists. -/
def onKeyLeft (st : LauncherState) : LauncherState :=
  if st.current_mode = Mode.Emoji ∧ st.displayed_results ≠ [] then
    let current_row := st.selected_index / 8
    let current_col := st.selected_index % 8
    let new_index :=
      if current_col = 0 then
        if 0 < current_row then
          min (current_row * 8 - 1) (st.displayed_results.length - 1)
        else st.selected_index
      else st.selected_index - 1
    { st with selected_index := new_index }
  else st

/-! ## `LauncherState::execute_selected` (`src/ui.rs` lines 254-301) -/

/-- The side-effecting dispatch `execute_selected` can perform, one
constructor per collaborator call in its `match` arms. -/
inductive ExecAction where
  | launchApp (a : App)
  | copyToClipboard (s : Str)
  | insertEmoji (s : Str)
  | executeCommand (s : Str)
  | searchYoutube (q : Str)
  | searchChatgpt (q : Str)
  | searchGoogle (q : Str)
  | switchToWindow (w : OpenWindow)
deriving DecidableEq

/-- The dispatch table of `execute_selected` (lines 260-297): which external
action each result item triggers.  A `searchQuery` with an unrecognised
engine (the `_ => {}` arm) and the `Settings` placeholder trigger nothing. -/
def actionsFor (item : ResultItem) : List ExecAction :=
  match item with
  | .app a => [.launchApp a]
  | .calculatorResult r => [.copyToClipboard r]
  | .emoji e => [.insertEmoji e.emoji]
  | .terminalCommand cmd => [.executeCommand cmd]
  | .searchQuery engine q =>
      if engine = str "youtube" then [.searchYoutube q]
      else if engine = str "chatgpt" then [.searchChatgpt q]
      else if engine = str "google" then [.searchGoogle q]
      else []
  | .openWindow w => [.switchToWindow w]
  | .settings => []

/-- `LauncherState::execute_selected` (lines 254-301).  The method takes
`&self`, so the state component of the returned pair is always the input
state; the `Except` component is the returned `Result`, carrying on success
the external dispatch the method performs.  Collaborator failures after the
dispatch are outside the embedding; the out-of-bounds check (lines 256-258)
returns before any dispatch. -/
def executeSelected (st : LauncherState) (index : Nat) :
    LauncherState × Except Str (List ExecAction) :=
  if h : index < st.displayed_results.length then
    (st, .ok (actionsFor (st.displayed_results.get ⟨index, h⟩)))
  else
    (st, .error (str "Index out of bounds"))

/-! ## Reachable states of the edit-event loop -/

/-- The states the launcher can reach: the initial state of
`LauncherState::new`, followed by any sequence of query edits
(`entry.connect_changed`) and arrow-key navigation steps. -/
inductive Reachable (env : Env) (emojis : List Emoji) : LauncherState → Prop where
  | init : Reachable env emojis (LauncherState.new emojis)
  | query (st : LauncherState) (q : Str) :
      Reachable env emojis st → Reachable env emojis (onQueryChanged env st q)
  | down (st : LauncherState) :
      Reachable env emojis st → Reachable env emojis (onKeyDown st)
  | up (st : LauncherState) :
      Reachable env emojis st → Reachable env emojis (onKeyUp st)
  | right (st : LauncherState) :
      Reachable env emojis st → Reachable env emojis (onKeyRight st)
  | left (st : LauncherState) :
      Reachable env emojis st → Reachable env emojis (onKeyLeft st)

/-! ## The spec-side priority classifier -/

/-- Modelled from the spec (§4.3): the mode dictated by the first matching
classification rule, with the rules tested in the spec's exact priority
order — empty string, settings keyword, window-switch keyword, search-engine
prefix, emoji prefix, calculation heuristic, terminal-command heuristic,
default Apps — over the trimmed query.  The calculation rule resolves to
`Calculator` when the evaluator succeeds and to the `Apps` fallback when it
fails; the settings rule presents its synthetic candidate in `Apps` mode. -/
def classifyMode (env : Env) (t : Str) : Mode :=
  if t = [] then .Apps
  else if settingsPred t then .Apps
  else if windowSwitchPred t then .WindowSwitch
  else if searchEnginePred t then .Search
  else if emojiPred t then .Emoji
  else if isCalculation env.parseF64ok t then
    match env.mevalFmt (normalizeGlyphs t) with
    | some _ => .Calculator
    | none => .Apps
  else if isTerminalCommand t then .Terminal
  else .Apps

/-! ## Helper lemmas -/

theorem windowSearch_nil (m : Matcher) (q : Str) : windowSearch m q [] = [] := by
  unfold windowSearch
  split
  · simp
  · simp [windowMatches]

theorem appSearch_length_le (m : Matcher) (apps : List App) (q : Str) :
    (appSearch m apps q).length ≤ 20 := by
  unfold appSearch
  split
  · simp
  · simp

theorem emojiSearch_length_le (m : Matcher) (emojis : List Emoji) (q : Str) :
    (emojiSearch m emojis q).length ≤ 20 := by
  unfold emojiSearch
  split
  · simp
  · simp

theorem windowSearch_length (m : Matcher) (q : Str) (ws : List OpenWindow) :
    (windowSearch m q ws).length =
      if q = [] then ws.length
      else (windowMatches m (toLowerStr q) ws).length := by
  unfold windowSearch
  split
  · simp_all
  · simp_all

theorem updateQueryWindowSwitch_mode (env : Env) (st : LauncherState) (q : Str) :
    (updateQueryWindowSwitch env st q).current_mode = Mode.WindowSwitch := by
  simp only [updateQueryWindowSwitch]
  repeat' split
  all_goals rfl

/-- C7: `Applications.search("")` on the collection sorted by
`AppLauncher::new` returns at most 20 candidates, they are the first entries
of the collection in ascending lowercased-name order, every score is 0, and
the fuzzy scorer is never consulted (the result is the same for every
scorer). -/
theorem c7_empty_query_fast_path (matcher : Matcher) (parsed : List App) :
    appSearch matcher (newSortedApps parsed) [] =
      ((newSortedApps parsed).map (fun a => (a, (0 : Int)))).take 20 ∧
    (appSearch matcher (newSortedApps parsed) []).length ≤ 20 ∧
    (∀ p ∈ appSearch matcher (newSortedApps parsed) [], p.2 = 0) ∧
    (appSearch matcher (newSortedApps parsed) []).Pairwise
      (fun p q => p.1.name_lower ≤ q.1.name_lower) ∧
    (∀ matcher2 : Matcher,
      appSearch matcher2 (newSortedApps parsed) [] =
        appSearch matcher (newSortedApps parsed) []) := by
  have hdef : ∀ m : Matcher, appSearch m (newSortedApps parsed) [] =
      ((newSortedApps parsed).map (fun a => (a, (0 : Int)))).take 20 := by
    intro m; simp [appSearch]
  refine ⟨hdef matcher, appSearch_length_le _ _ _, ?_, ?_, fun m2 => by rw [hdef, hdef]⟩
  · intro p hp
    rw [hdef] at hp
    rcases List.mem_map.mp (List.take_subset _ _ hp) with ⟨a, -, rfl⟩
    rfl
  · rw [hdef]
    haveI : IsTotal App (fun a b => a.name_lower ≤ b.name_lower) :=
      ⟨fun a b => le_total _ _⟩
    haveI : IsTrans App (fun a b => a.name_lower ≤ b.name_lower) :=
      ⟨fun _ _ _ h1 h2 => le_trans h1 h2⟩
    have hsorted : (newSortedApps parsed).Pairwise
        (fun a b => a.name_lower ≤ b.name_lower) :=
      List.sorted_insertionSort _ parsed
    have hmap : (((newSortedApps parsed).map (fun a => (a, (0 : Int))))).Pairwise
        (fun p q => p.1.name_lower ≤ q.1.name_lower) :=
      (List.pairwise_map).mpr hsorted
    exact hmap.sublist (List.take_sublist _ _)

/-- C8: every rankable collection respects its cap: app search and emoji
search return at most 20 items for every query (hence at most 24 in the
emoji grid), window search never truncates (its length is exactly the
window count for an empty sub-query and exactly the match count otherwise),
and the displayed list is capped externally at the display limit of the
current mode. -/
theorem c8_display_budgets (matcher : Matcher) (apps : List App)
    (emojis : List Emoji) (windows : List OpenWindow) (q : Str) (env : Env)
    (st : LauncherState) (raw : Str) :
    (appSearch matcher apps q).length ≤ 20 ∧
    (emojiSearch matcher emojis q).length ≤ 20 ∧
    (emojiSearch matcher emojis q).length ≤ 24 ∧
    ((windowSearch matcher q windows).length =
      if q = [] then windows.length
      else (windowMatches matcher (toLowerStr q) windows).length) ∧
    (onQueryChanged env st raw).displayed_results.length ≤
      displayLimit ((onQueryChanged env st raw).current_mode) := by
  refine ⟨appSearch_length_le _ _ _, emojiSearch_length_le _ _ _,
    le_trans (emojiSearch_length_le _ _ _) (by norm_num),
    windowSearch_length _ _ _, ?_⟩
  simp [onQueryChanged]

/-- C10: for every launcher state and every index at or beyond the end of
`displayed_results` (in particular any index at all when the display is
empty), `execute_selected` returns the out-of-bounds error, dispatches no
external action, and leaves the state unchanged. -/
theorem c10_out_of_bounds_is_noop (st : LauncherState) (index : Nat)
    (h : st.displayed_results.length ≤ index) :
    executeSelected st index = (st, .error (str "Index out of bounds")) := by
  unfold executeSelected
  rw [dif_neg (by omega)]

/-- Witness for C10 at the initial state and index 0. -/
theorem c10_witness :
    (LauncherState.new []).displayed_results.length ≤ 0 ∧
    executeSelected (LauncherState.new []) 0 =
      (LauncherState.new [], .error (str "Index out of bounds")) :=
  ⟨by decide, c10_out_of_bounds_is_noop (LauncherState.new []) 0 (by decide)⟩

deriving instance DecidableEq for Except

/-- Two distinct windows visible through different backends. -/
def wAlpha : OpenWindow := ⟨str "10", str "Alpha Editor", str "Alpha"⟩

/-- Second backend window, distinct from `wAlpha` in title and app name. -/
def wBeta : OpenWindow := ⟨str "11", str "Beta Browser", str "Beta"⟩

/-- Probe outcomes in which the first backend (window-calls) already returns
a non-empty set and wmctrl is installed and returns another window. -/
def bkBoth : WinBackends :=
  { window_calls := .ok [wAlpha], has_wmctrl := true, wmctrl := .ok [wBeta],
    has_xdotool := false, xdotool := .ok [] }

/-- Counterexample for C4: the first backend produces the non-empty set
`[wAlpha]`, yet enumeration does not stop there — the wmctrl backend still
runs and its result is merged, so the outcome is `[wAlpha, wBeta]`, not
`[wAlpha]`. -/
theorem c4_counterexample :
    bkBoth.window_calls = .ok [wAlpha] ∧ ([wAlpha] : List OpenWindow) ≠ [] ∧
    getOpenWindows bkBoth = .ok [wAlpha, wBeta] ∧
    getOpenWindows bkBoth ≠ .ok [wAlpha] := by
  decide

/-- C4 (amended): window enumeration always consults the window-calls
backend and, when wmctrl is installed, also wmctrl, merging the two result
sets (deduplicated by `(title, app_name)` against the window-calls set);
a non-empty merged set wins and short-circuits the xdotool backend; an
empty merged set falls through to xdotool, whose non-empty success is
returned; a descriptive error — never a silently successful empty set —
results exactly when the merged set is empty and xdotool is missing, fails,
or returns empty. -/
theorem c4_amended_fallback_chain (bk : WinBackends) :
    (mergedWindows bk ≠ [] → getOpenWindows bk = .ok (mergedWindows bk)) ∧
    (mergedWindows bk = [] → ∀ ws, bk.has_xdotool = true →
      bk.xdotool = .ok ws → ws ≠ [] → getOpenWindows bk = .ok ws) ∧
    ((∃ e, getOpenWindows bk = .error e) ↔
      mergedWindows bk = [] ∧
        (bk.has_xdotool = false ∨ bk.xdotool = .ok [] ∨
          ∃ e, bk.xdotool = .error e)) ∧
    (∀ e, getOpenWindows bk = .error e → e = noWindowsMsg) ∧
    (∀ ws, getOpenWindows bk = .ok ws → ws ≠ []) := by
  by_cases hm : mergedWindows bk = []
  · cases hx : bk.has_xdotool
    · refine ⟨fun h => absurd hm h,
        fun _ ws hxt => absurd hxt (by decide), ?_, ?_, ?_⟩
      · simp [getOpenWindows, hm, hx, noWindowsMsg]
      · intro e he
        simpa [getOpenWindows, hm, hx] using he.symm
      · intro ws hws
        simp [getOpenWindows, hm, hx] at hws
    · rcases hxo : bk.xdotool with e | ws
      · refine ⟨fun h => absurd hm h, fun _ ws _ hws => by simp [hxo] at hws, ?_, ?_, ?_⟩
        · simp [getOpenWindows, hm, hx, hxo]
        · intro e' he'
          simpa [getOpenWindows, hm, hx, hxo] using he'.symm
        · intro ws hws
          simp [getOpenWindows, hm, hx, hxo] at hws
      · by_cases hwse : ws = []
        · subst hwse
          refine ⟨fun h => absurd hm h, fun _ ws' _ hws' hne => ?_, ?_, ?_, ?_⟩
          · cases hws'
            exact absurd rfl hne
          · simp [getOpenWindows, hm, hx, hxo]
          · intro e' he'
            simpa [getOpenWindows, hm, hx, hxo] using he'.symm
          · intro ws' hws'
            simp [getOpenWindows, hm, hx, hxo] at hws'
        · refine ⟨fun h => absurd hm h, fun _ ws' _ hws' _ => ?_, ?_, ?_, ?_⟩
          · cases hws'
            simp [getOpenWindows, hm, hx, hxo, hwse]
          · simp [getOpenWindows, hm, hx, hxo, hwse]
          · intro e' he'
            simp [getOpenWindows, hm, hx, hxo, hwse] at he'
          · intro ws' hws'
            simp [getOpenWindows, hm, hx, hxo, hwse] at hws'
            exact hws' ▸ hwse
  · refine ⟨fun _ => by simp [getOpenWindows, hm], fun h => absurd h hm, ?_, ?_, ?_⟩
    · simp [getOpenWindows, hm]
    · intro e he
      simp [getOpenWindows, hm] at he
    · intro ws hws
      simp [getOpenWindows, hm] at hws
      exact hws ▸ hm

/-- Witness for the amended C4 at a point where the merged set is
non-empty. -/
theorem c4_amended_witness :
    mergedWindows bkBoth ≠ [] ∧
    getOpenWindows bkBoth = .ok (mergedWindows bkBoth) :=
  ⟨by decide, (c4_amended_fallback_chain bkBoth).1 (by decide)⟩

/-- Probe outcomes in which no backend is available and none returns a
window, so `get_open_windows` fails with its descriptive error. -/
def bkNone : WinBackends :=
  { window_calls := .ok [], has_wmctrl := false, wmctrl := .ok [],
    has_xdotool := false, xdotool := .ok [] }

/-- A collaborator environment in which the scorer never matches, nothing
parses as a float, arithmetic evaluation always fails, and window
enumeration always fails. -/
def env0 : Env :=
  { matcher := fun _ _ => none, parseF64ok := fun _ => false,
    mevalFmt := fun _ => none, wb1 := bkNone, wb2 := bkNone }

/-- A window sitting in the router's cache. -/
def wCached : OpenWindow := ⟨str "42", str "Some Editor", str "Editor"⟩

/-- A router state that is in WindowSwitch mode with a non-empty cached
window list, as left behind by a previous "sw" query. -/
def stWS : LauncherState :=
  { LauncherState.new [] with current_mode := Mode.WindowSwitch,
                              open_windows := [wCached] }

/-- C3 (refuting evaluation): exits from WindowSwitch mode do not clear the
cached window list.  From a WindowSwitch state with cache `[wCached]`, the
queries "firefox" (default Apps rule), "" (empty rule) and "settings"
(settings rule) all leave WindowSwitch mode yet leave the cache intact —
the guard at ui.rs:149 tests the prior mode and so skips the clear exactly
when the prior mode was WindowSwitch.  Consequently re-entering with "sw"
right after the "firefox" exit reuses the stale cache and performs no fresh
(failing) enumeration: the result is the cached window, not the synthetic
error candidate that the fresh enumeration `getOpenWindows bkNone` (an
error) would produce. -/
theorem c3_exit_does_not_clear_cache :
    (updateQuery env0 stWS (str "firefox")).current_mode = Mode.Apps ∧
    (updateQuery env0 stWS (str "firefox")).open_windows = [wCached] ∧
    (updateQuery env0 stWS (str "")).current_mode = Mode.Apps ∧
    (updateQuery env0 stWS (str "")).open_windows = [wCached] ∧
    (updateQuery env0 stWS (str "settings")).current_mode = Mode.Apps ∧
    (updateQuery env0 stWS (str "settings")).open_windows = [wCached] ∧
    getOpenWindows bkNone = .error noWindowsMsg ∧
    (updateQuery env0 (updateQuery env0 stWS (str "firefox")) (str "sw")).results
      = [ResultItem.openWindow wCached] := by
  decide

/-- A window-switch query is never the empty string. -/
theorem windowSwitchPred_ne_nil {t : Str} (h : windowSwitchPred t = true) :
    t ≠ [] := by
  rcases Bool.or_eq_true_iff.mp h with h1 | h4
  · rcases Bool.or_eq_true_iff.mp h1 with h1 | h3
    · rcases Bool.or_eq_true_iff.mp h1 with h1 | h2
      · exact of_decide_eq_true h1 ▸ (by decide)
      · rcases List.isPrefixOf_iff_prefix.mp h2 with ⟨u, rfl⟩
        exact List.cons_ne_nil _ _
    · exact of_decide_eq_true h3 ▸ (by decide)
  · rcases List.isPrefixOf_iff_prefix.mp h4 with ⟨u, rfl⟩
    exact List.cons_ne_nil _ _

/-- A window-switch query never satisfies the settings condition (the two
rule guards are mutually exclusive, as the first characters differ). -/
theorem windowSwitchPred_not_settings {t : Str} (h : windowSwitchPred t = true) :
    settingsPred t = false := by
  rcases Bool.or_eq_true_iff.mp h with h1 | h4
  · rcases Bool.or_eq_true_iff.mp h1 with h1 | h3
    · rcases Bool.or_eq_true_iff.mp h1 with h1 | h2
      · exact of_decide_eq_true h1 ▸ (by decide)
      · rcases List.isPrefixOf_iff_prefix.mp h2 with ⟨u, rfl⟩
        rfl
    · exact of_decide_eq_true h3 ▸ (by decide)
  · rcases List.isPrefixOf_iff_prefix.mp h4 with ⟨u, rfl⟩
    rfl

/-- A window-enumeration outcome that failed or produced nothing. -/
def enumFailEmpty (r : Except Str (List OpenWindow)) : Prop :=
  (∃ e, r = .error e) ∨ r = .ok []

/-- C6: for any window-switch query, when the cached window list is empty
and both enumeration attempts fail or come back empty, the router stays in
WindowSwitch mode and its result list is exactly one synthetic "info" or
"error" candidate — the enumeration failure is absorbed, never propagated,
and the result list is never left empty. -/
theorem c6_enumeration_failure_synthetic_candidate (env : Env)
    (st : LauncherState) (q : Str)
    (hq : windowSwitchPred (strTrim q) = true)
    (hcache : st.open_windows = [])
    (h1 : enumFailEmpty (getOpenWindows env.wb1))
    (h2 : enumFailEmpty (getOpenWindows env.wb2)) :
    (updateQuery env st q).current_mode = Mode.WindowSwitch ∧
    (updateQuery env st q).results.length = 1 ∧
    ∀ r ∈ (updateQuery env st q).results,
      ∃ s, r = ResultItem.searchQuery (str "info") s ∨
           r = ResultItem.searchQuery (str "error") s := by
  have hne : ¬(strTrim q = []) := windowSwitchPred_ne_nil hq
  have hset : ¬(settingsPred (strTrim q) = true) := by
    simp [windowSwitchPred_not_settings hq]
  unfold updateQuery
  rw [if_neg hne, if_neg hset, if_pos hq]
  unfold updateQueryWindowSwitch
  have how : (if st.open_windows = [] then
      match getOpenWindows env.wb1 with
      | .ok ws => if ws ≠ [] then ws else st.open_windows
      | .error _ => st.open_windows
    else st.open_windows) = [] := by
    rcases h1 with ⟨e, he⟩ | hok
    · simp [hcache, he]
    · simp [hcache, hok]
  rw [how]
  dsimp only
  rw [windowSearch_nil]
  rw [if_pos (by simp)]
  rcases h2 with ⟨e2, he2⟩ | hok2
  · rw [he2]
    refine ⟨rfl, rfl, ?_⟩
    intro r hr
    rcases List.mem_singleton.mp hr with rfl
    exact ⟨_, Or.inr rfl⟩
  · rw [hok2]
    simp only [ne_eq, not_true_eq_false, if_false]
    refine ⟨by trivial, by trivial, ?_⟩
    intro r hr
    rcases List.mem_singleton.mp hr with rfl
    exact ⟨_, Or.inl rfl⟩

/-- Witness for C6 at the query "sw " with every backend failing. -/
theorem c6_witness :
    windowSwitchPred (strTrim (str "sw ")) = true ∧
    (updateQuery env0 (LauncherState.new []) (str "sw ")).current_mode =
      Mode.WindowSwitch ∧
    (updateQuery env0 (LauncherState.new []) (str "sw ")).results.length = 1 :=
  ⟨by decide,
   (c6_enumeration_failure_synthetic_candidate env0 (LauncherState.new [])
      (str "sw ") (by decide) rfl (Or.inl ⟨noWindowsMsg, rfl⟩)
      (Or.inl ⟨noWindowsMsg, rfl⟩)).1,
   (c6_enumeration_failure_synthetic_candidate env0 (LauncherState.new [])
      (str "sw ") (by decide) rfl (Or.inl ⟨noWindowsMsg, rfl⟩)
      (Or.inl ⟨noWindowsMsg, rfl⟩)).2.1⟩

/-- C5: whenever the router reaches the calculation rule (no earlier rule
matched) and the trimmed query satisfies the calculation heuristic but its
evaluation fails, the router falls back to Apps mode and its results are
exactly the application search run on the full (trimmed) query string — the
evaluation failure is never surfaced as an error candidate. -/
theorem c5_calc_failure_falls_back_to_apps (env : Env) (st : LauncherState)
    (q : Str)
    (hne : strTrim q ≠ [])
    (hset : settingsPred (strTrim q) = false)
    (hws : windowSwitchPred (strTrim q) = false)
    (hse : searchEnginePred (strTrim q) = false)
    (hem : emojiPred (strTrim q) = false)
    (hcalc : isCalculation env.parseF64ok (strTrim q) = true)
    (heval : env.mevalFmt (normalizeGlyphs (strTrim q)) = none) :
    (updateQuery env st q).current_mode = Mode.Apps ∧
    (updateQuery env st q).results =
      (appSearch env.matcher st.apps (strTrim q)).map
        (fun p => ResultItem.app p.1) := by
  have hse' := hse
  simp only [searchEnginePred, Bool.or_eq_false_iff] at hse'
  obtain ⟨⟨⟨⟨hyt, hyoutube⟩, hgpt⟩, hchatgpt⟩, hgoogle⟩ := hse'
  unfold updateQuery
  rw [if_neg hne, if_neg (by simp [hset]), if_neg (by simp [hws])]
  have happs : (if st.current_mode ≠ Mode.WindowSwitch then
      { st with open_windows := [] } else st).apps = st.apps := by
    split <;> rfl
  rw [if_neg (by simp [hyt, hyoutube]), if_neg (by simp [hgpt, hchatgpt]),
    if_neg (by simp [hgoogle]), if_neg (by simp [hem]), if_pos hcalc, heval]
  rw [happs]
  exact ⟨rfl, rfl⟩

/-- Witness for C5 at the calculation-shaped query "2+" whose evaluation
fails in `env0`. -/
theorem c5_witness :
    isCalculation env0.parseF64ok (strTrim (str "2+")) = true ∧
    env0.mevalFmt (normalizeGlyphs (strTrim (str "2+"))) = none ∧
    ((updateQuery env0 (LauncherState.new []) (str "2+")).current_mode =
        Mode.Apps ∧
      (updateQuery env0 (LauncherState.new []) (str "2+")).results =
        (appSearch env0.matcher (LauncherState.new []).apps
            (strTrim (str "2+"))).map (fun p => ResultItem.app p.1)) :=
  ⟨by decide, rfl,
   c5_calc_failure_falls_back_to_apps env0 (LauncherState.new []) (str "2+")
     (by decide) (by decide) (by decide) (by decide) (by decide) (by decide)
     rfl⟩

/-- C1: classification is total and priority-ordered: for every query
string, every router state and every collaborator environment,
`update_query` assigns exactly the mode dictated by the first matching
classification rule of the spec-side priority chain `classifyMode`,
evaluated on the trimmed query — so classification never fails, depends
only on the trimmed query (never on the prior state), and later rules are
dead once an earlier rule matches. -/
theorem c1_classification_total_priority (env : Env) (st : LauncherState)
    (q : Str) :
    (updateQuery env st q).current_mode = classifyMode env (strTrim q) := by
  unfold updateQuery classifyMode
  by_cases h0 : strTrim q = []
  · rw [if_pos h0, if_pos h0]
  · rw [if_neg h0, if_neg h0]
    by_cases h1 : settingsPred (strTrim q) = true
    · rw [if_pos h1, if_pos h1]
    · rw [if_neg h1, if_neg h1]
      by_cases h2 : windowSwitchPred (strTrim q) = true
      · rw [if_pos h2, if_pos h2]
        exact updateQueryWindowSwitch_mode env st _
      · rw [if_neg h2, if_neg h2]
        dsimp only
        by_cases h3 : ((str "yt ").isPrefixOf (strTrim q) ||
            (str "youtube ").isPrefixOf (strTrim q)) = true
        · rw [if_pos h3, if_pos (show searchEnginePred (strTrim q) = true by
            rcases Bool.or_eq_true_iff.mp h3 with h | h <;>
              simp [searchEnginePred, h])]
        · rw [if_neg h3]
          by_cases h4 : ((str "gpt ").isPrefixOf (strTrim q) ||
              (str "chatgpt ").isPrefixOf (strTrim q)) = true
          · rw [if_pos h4, if_pos (show searchEnginePred (strTrim q) = true by
              rcases Bool.or_eq_true_iff.mp h4 with h | h <;>
                simp [searchEnginePred, h])]
          · rw [if_neg h4]
            by_cases h5 : (str "google ").isPrefixOf (strTrim q) = true
            · rw [if_pos h5, if_pos (show searchEnginePred (strTrim q) = true by
                simp [searchEnginePred, h5])]
            · rw [if_neg h5, if_neg (show ¬searchEnginePred (strTrim q) = true by
                simp only [searchEnginePred, Bool.or_eq_true_iff] at *
                tauto)]
              by_cases h6 : emojiPred (strTrim q) = true
              · rw [if_pos h6, if_pos h6]
              · rw [if_neg h6, if_neg h6]
                by_cases h7 : isCalculation env.parseF64ok (strTrim q) = true
                · rw [if_pos h7, if_pos h7]
                  cases env.mevalFmt (normalizeGlyphs (strTrim q)) <;> rfl
                · rw [if_neg h7, if_neg h7]
                  by_cases h8 : isTerminalCommand (strTrim q) = true
                  · rw [if_pos h8, if_pos h8]
                  · rw [if_neg h8, if_neg h8]
                    split <;> split <;> rfl

/-- The Down handler preserves the selection invariant. -/
theorem onKeyDown_inv (st : LauncherState)
    (h : st.displayed_results ≠ [] →
      st.selected_index < st.displayed_results.length) :
    (onKeyDown st).displayed_results ≠ [] →
      (onKeyDown st).selected_index < (onKeyDown st).displayed_results.length := by
  unfold onKeyDown
  split
  · rename_i hc
    intro _
    have hlen : 0 < st.displayed_results.length := List.length_pos.mpr hc.2
    show min (st.selected_index + 8) (st.displayed_results.length - 1) <
      st.displayed_results.length
    have := Nat.min_le_right (st.selected_index + 8)
      (st.displayed_results.length - 1)
    omega
  · exact h

/-- The Up handler preserves the selection invariant. -/
theorem onKeyUp_inv (st : LauncherState)
    (h : st.displayed_results ≠ [] →
      st.selected_index < st.displayed_results.length) :
    (onKeyUp st).displayed_results ≠ [] →
      (onKeyUp st).selected_index < (onKeyUp st).displayed_results.length := by
  unfold onKeyUp
  split
  · rename_i hc
    intro _
    have hsel := h hc.2
    show st.selected_index - 8 < st.displayed_results.length
    omega
  · exact h

/-- The Right handler preserves the selection invariant. -/
theorem onKeyRight_inv (st : LauncherState)
    (h : st.displayed_results ≠ [] →
      st.selected_index < st.displayed_results.length) :
    (onKeyRight st).displayed_results ≠ [] →
      (onKeyRight st).selected_index <
        (onKeyRight st).displayed_results.length := by
  unfold onKeyRight
  split
  · rename_i hc
    intro _
    have hlen : 0 < st.displayed_results.length := List.length_pos.mpr hc.2
    have hsel := h hc.2
    show (if st.selected_index % 8 = 7 then
        if (st.selected_index / 8 + 1) * 8 ≤ st.displayed_results.length - 1 then
          (st.selected_index / 8 + 1) * 8
        else st.selected_index
      else min (st.selected_index + 1) (st.displayed_results.length - 1)) <
      st.displayed_results.length
    split
    · split <;> omega
    · have := Nat.min_le_right (st.selected_index + 1)
        (st.displayed_results.length - 1)
      omega
  · exact h

/-- The Left handler preserves the selection invariant. -/
theorem onKeyLeft_inv (st : LauncherState)
    (h : st.displayed_results ≠ [] →
      st.selected_index < st.displayed_results.length) :
    (onKeyLeft st).displayed_results ≠ [] →
      (onKeyLeft st).selected_index <
        (onKeyLeft st).displayed_results.length := by
  unfold onKeyLeft
  split
  · rename_i hc
    intro _
    have hlen : 0 < st.displayed_results.length := List.length_pos.mpr hc.2
    have hsel := h hc.2
    show (if st.selected_index % 8 = 0 then
        if 0 < st.selected_index / 8 then
          min (st.selected_index / 8 * 8 - 1) (st.displayed_results.length - 1)
        else st.selected_index
      else st.selected_index - 1) < st.displayed_results.length
    split
    · split
      · have := Nat.min_le_right (st.selected_index / 8 * 8 - 1)
          (st.displayed_results.length - 1)
        omega
      · omega
    · omega
  · exact h

/-- C9: the RouterState invariant.  First conjunct: in every reachable
state, a non-empty `displayed_results` implies
`selected_index < displayed_results.length`.  Second conjunct: every query
change resets `selected_index` to 0 and sets `displayed_results` to the
prefix of the full result list of length at most the display limit of the
new mode. -/
theorem c9_router_state_invariant :
    (∀ (env : Env) (emojis : List Emoji) (st : LauncherState),
        Reachable env emojis st →
        st.displayed_results ≠ [] →
        st.selected_index < st.displayed_results.length) ∧
    (∀ (env : Env) (st : LauncherState) (q : Str),
        (onQueryChanged env st q).selected_index = 0 ∧
        (onQueryChanged env st q).displayed_results =
          (updateQuery env st q).results.take
            (displayLimit ((updateQuery env st q).current_mode)) ∧
        (onQueryChanged env st q).displayed_results.length ≤
          displayLimit ((updateQuery env st q).current_mode)) := by
  constructor
  · intro env emojis st hreach
    induction hreach with
    | init => intro hne; exact absurd rfl hne
    | query st' q' _ _ =>
        intro hne
        have h0 : (onQueryChanged env st' q').selected_index = 0 := rfl
        rw [h0]
        exact List.length_pos.mpr hne
    | down st' _ ih => exact onKeyDown_inv st' ih
    | up st' _ ih => exact onKeyUp_inv st' ih
    | right st' _ ih => exact onKeyRight_inv st' ih
    | left st' _ ih => exact onKeyLeft_inv st' ih
  · intro env st q
    refine ⟨rfl, rfl, ?_⟩
    show ((updateQuery env st q).results.take
        (displayLimit ((updateQuery env st q).current_mode))).length ≤
      displayLimit ((updateQuery env st q).current_mode)
    rw [List.length_take]
    exact min_le_left _ _

/-- Witness for C9 at a reachable state with a non-empty display (after the
query "ls"). -/
theorem c9_witness :
    (onQueryChanged env0 (LauncherState.new []) (str "ls")).displayed_results ≠
      [] ∧
    (onQueryChanged env0 (LauncherState.new []) (str "ls")).selected_index <
      (onQueryChanged env0 (LauncherState.new [])
        (str "ls")).displayed_results.length :=
  ⟨by decide,
   c9_router_state_invariant.1 env0 [] _
     (Reachable.query (LauncherState.new []) (str "ls") Reachable.init)
     (by decide)⟩
